import Mathlib

/-
Shallow embedding of the sundance-ticket-monitor repository
(src/src/auto-purchase.js and src/src/monitor.js), written to settle the
claims about the AutoPurchase matcher, the state differ, the checkout
automation engine and its error handling.

Browser effects (clicks, fills, screenshots, waits) are modelled as
observations supplied to the embedded control flow: each loop iteration of
the checkout engine reads a `StepObs` record saying which detectors fired
and which heuristic actions produced an effect on the page, exactly the
booleans the source reads at that point.  DOM fragments that the code
inspects (quantity selects, number inputs, schedule rows) are embedded as
explicit structures carrying the fields the source reads.
-/

namespace Sundance

/-- Whether `p` is a prefix of the character list. -/
def listStartsWith : List Char → List Char → Bool
  | _, [] => true
  | [], _ :: _ => false
  | c :: cs, p :: ps => c == p && listStartsWith cs ps

/-- Whether `p` occurs as a contiguous sublist. -/
def listContainsSub (p : List Char) : List Char → Bool
  | [] => p.isEmpty
  | c :: cs => listStartsWith (c :: cs) p || listContainsSub p cs

/-- JavaScript `String.prototype.includes`: true iff `pat` occurs in `s`
(the empty pattern always occurs). -/
def jsIncludes (s pat : String) : Bool :=
  listContainsSub pat.data s.data

/-- JavaScript `toLowerCase` (ASCII, which is all the code compares). -/
def jsToLower (s : String) : String :=
  String.mk (s.data.map Char.toLower)

/-- JavaScript `toUpperCase` (ASCII). -/
def jsToUpper (s : String) : String :=
  String.mk (s.data.map Char.toUpper)

/-- JavaScript `trim`: strip leading and trailing whitespace. -/
def jsTrim (s : String) : String :=
  String.mk (((s.data.dropWhile Char.isWhitespace).reverse.dropWhile Char.isWhitespace).reverse)

/-- `normalizeTitle` from auto-purchase.js: lower-case then trim. -/
def normalizeTitle (title : String) : String :=
  jsTrim (jsToLower title)

/-- JavaScript truthiness test `!x` for an optional string field: absent or
empty strings are falsy (used by the code as `!f.screeningTime`). -/
def jsFalsyStr : Option String → Bool
  | none => true
  | some s => s == ""

/-- Payment fields of `settings.payment` (auto-purchase.json). -/
structure PaymentSettings where
  cardNumber : Option String
  exp : Option String
  cvc : Option String
  name : Option String
  zip : Option String
deriving DecidableEq, Repr

/-- The `settings` object of auto-purchase.json as read by the engine.
`none` models an absent (undefined) field. -/
structure Settings where
  maxSteps : Option Nat
  stepWaitMs : Option Nat
  waitForBuyAdditionalMs : Option Nat
  ticketQuantity : Option Nat
  debugScreenshots : Option Bool
  debugButtonDump : Option Bool
  notifyOnPurchaseUpdates : Option Bool
  keepCheckoutOpen : Option Bool
  payment : Option PaymentSettings
deriving DecidableEq, Repr

/-- A settings object with every field absent. -/
def defaultSettings : Settings :=
  ⟨none, none, none, none, none, none, none, none, none⟩

/-- One entry of `config.films`; `screeningTime = none` models a rule whose
JSON object has no screeningTime field. -/
structure FilmRule where
  title : String
  screeningTime : Option String
  autoPurchase : Bool
deriving DecidableEq, Repr

/-- The parsed auto-purchase.json object. -/
structure AutoPurchaseConfig where
  enabled : Bool
  films : List FilmRule
  settings : Settings
deriving DecidableEq, Repr

/-- The first `find` predicate of `getFilmSettings`: exact match on both the
normalized title and the normalized screening time. -/
def exactRulePred (normalizedTitle normalizedTime : String) (f : FilmRule) : Bool :=
  normalizeTitle f.title == normalizedTitle &&
    normalizeTitle (f.screeningTime.getD "") == normalizedTime

/-- The second `find` predicate of `getFilmSettings`: rules without a
screening time (JS-falsy field), matched on title only. -/
def titleOnlyPred (normalizedTitle : String) (f : FilmRule) : Bool :=
  jsFalsyStr f.screeningTime && normalizeTitle f.title == normalizedTitle

/-- `getFilmSettings(filmTitle, screeningTime, config)` from
auto-purchase.js lines 52-73: exact (title, time) match first, then the
title-only fallback over rules with no screening time. -/
def getFilmSettings (filmTitle : String) (screeningTime : Option String)
    (config : Option AutoPurchaseConfig) : Option FilmRule :=
  match config with
  | none => none
  | some config =>
    let normalizedTitle := normalizeTitle filmTitle
    let normalizedTime := normalizeTitle (screeningTime.getD "")
    match config.films.find? (exactRulePred normalizedTitle normalizedTime) with
    | some exactMatch => some exactMatch
    | none => config.films.find? (titleOnlyPred normalizedTitle)

/-- `shouldAutoPurchase` from auto-purchase.js lines 76-79. -/
def shouldAutoPurchase (filmTitle : String) (screeningTime : Option String)
    (config : Option AutoPurchaseConfig) : Bool :=
  match getFilmSettings filmTitle screeningTime config with
  | some film => film.autoPurchase == true
  | none => false

/-- Ticket status classification produced by `extractTicketInfo`. -/
inductive TicketStatus
  | UNKNOWN
  | AVAILABLE
  | SOLD_OUT
  | WAITLIST
deriving DecidableEq, Repr

/-- One record of the extracted snapshot (monitor.js). -/
structure ScreeningRecord where
  title : String
  screeningTime : String
  status : TicketStatus
  buttonText : String
  url : String
deriving DecidableEq, Repr

/-- Change event kinds produced by `detectChanges`. -/
inductive ChangeType
  | NEW_AVAILABLE
  | NOW_AVAILABLE
deriving DecidableEq, Repr

/-- A change event: `{ type, ...current }` spreads every field of the
current record into the event. -/
structure ChangeEvent where
  type : ChangeType
  title : String
  screeningTime : String
  status : TicketStatus
  buttonText : String
  url : String
deriving DecidableEq, Repr

/-- Builds the object `{ type, ...current }`. -/
def mkChangeEvent (t : ChangeType) (r : ScreeningRecord) : ChangeEvent :=
  ⟨t, r.title, r.screeningTime, r.status, r.buttonText, r.url⟩

/-- A snapshot, keyed association list in object-iteration order (JS object
keys are unique; `Object.entries` preserves insertion order). -/
abbrev Snapshot := List (String × ScreeningRecord)

/-- `previousState[key]` lookup. -/
def snapshotLookup (s : Snapshot) (key : String) : Option ScreeningRecord :=
  (s.find? (fun p => p.1 == key)).map Prod.snd

/-- `detectChanges(previousState, currentState)` from monitor.js lines
174-201, iterating `Object.entries(currentState)` in order. -/
def detectChanges (previousState : Snapshot) : Snapshot → List ChangeEvent
  | [] => []
  | (key, current) :: rest =>
    match snapshotLookup previousState key with
    | none =>
      if current.status == TicketStatus.AVAILABLE then
        mkChangeEvent ChangeType.NEW_AVAILABLE current :: detectChanges previousState rest
      else
        detectChanges previousState rest
    | some previous =>
      if previous.status == TicketStatus.SOLD_OUT && current.status == TicketStatus.AVAILABLE then
        mkChangeEvent ChangeType.NOW_AVAILABLE current :: detectChanges previousState rest
      else
        detectChanges previousState rest

/-- Claim-side per-key event classification (the wording of the spec for the
State Differ), used to compare against `detectChanges`. -/
def changeEventFor (previousState : Snapshot) (entry : String × ScreeningRecord) :
    Option ChangeEvent :=
  match snapshotLookup previousState entry.1 with
  | none =>
    if entry.2.status == TicketStatus.AVAILABLE then
      some (mkChangeEvent ChangeType.NEW_AVAILABLE entry.2)
    else none
  | some previous =>
    if previous.status == TicketStatus.SOLD_OUT && entry.2.status == TicketStatus.AVAILABLE then
      some (mkChangeEvent ChangeType.NOW_AVAILABLE entry.2)
    else none

/-- Claim-side differ: one optional event per current entry, in current
iteration order. -/
def detectChangesSpec (previousState currentState : Snapshot) : List ChangeEvent :=
  currentState.filterMap (changeEventFor previousState)

/-- The possible states of the auto-purchase.json file as seen by
`loadAutoPurchaseConfig`: absent, present but not parseable JSON (the
`JSON.parse` throw is caught), or parsed to a config object whose
`enabled` field is a boolean. -/
inductive AutoPurchaseFile
  | absent
  | malformed
  | wellFormed (config : AutoPurchaseConfig)

/-- `loadAutoPurchaseConfig` from auto-purchase.js lines 34-49: null when
the file is absent, when parsing throws (caught locally), or when
`config.enabled` is falsy; the parsed config otherwise.  Totality of this
function is the never-throws property. -/
def loadAutoPurchaseConfig : AutoPurchaseFile → Option AutoPurchaseConfig
  | AutoPurchaseFile.absent => none
  | AutoPurchaseFile.malformed => none
  | AutoPurchaseFile.wellFormed config =>
    if config.enabled then some config else none

/-- The auto-purchase gate of `monitorSchedule` (monitor.js lines 362-394):
the changes for which `attemptPurchase` is invoked in one cycle.  The
Matcher (`shouldAutoPurchase`) and the Engine are consulted only inside
`if (autoPurchaseConfig)`. -/
def autoPurchaseInvocations (file : AutoPurchaseFile) (changes : List ChangeEvent) :
    List ChangeEvent :=
  match loadAutoPurchaseConfig file with
  | none => []
  | some config =>
    changes.filter (fun change =>
      (change.type == ChangeType.NOW_AVAILABLE || change.type == ChangeType.NEW_AVAILABLE) &&
        shouldAutoPurchase change.title (some change.screeningTime) (some config))

/-- What one iteration of the checkout stepping loop observes on the page:
the four hazard detectors, the page URL, and whether each heuristic action
would produce an effect when attempted at this point. -/
structure StepObs where
  queue : Bool
  login : Bool
  confirmation : Bool
  blockingError : Bool
  url : String
  termsEffect : Bool
  finalClicked : Bool
  confirmAfterFinal : Bool
  quantityEffect : Bool
  savedPaymentEffect : Bool
  continueEffect : Bool
deriving DecidableEq, Repr

/-- `{ success, reason, url }`; the url field is absent (`none`) on results
built without `url: page.url()`. -/
structure CheckoutResult where
  success : Bool
  reason : String
  url : Option String
deriving DecidableEq, Repr

/-- The hazard checks at the top of each loop iteration of
`runCheckoutFlow` (auto-purchase.js lines 459-471), in source order:
queue, login, confirmation, blocking modal error. -/
def hazardResult (o : StepObs) : Option CheckoutResult :=
  if o.queue then some ⟨false, "Queue/waiting room encountered", some o.url⟩
  else if o.login then some ⟨false, "Login required during checkout", some o.url⟩
  else if o.confirmation then some ⟨true, "Purchase confirmed", some o.url⟩
  else if o.blockingError then some ⟨false, "Checkout error in modal", some o.url⟩
  else none

/-- Everything in one loop iteration that can return from
`runCheckoutFlow`: a hazard, or the final-purchase click followed by a
confirmation detection (lines 479-485).  All other actions only set
`acted` and the loop continues. -/
def stepResult (o : StepObs) : Option CheckoutResult :=
  match hazardResult o with
  | some r => some r
  | none =>
    if o.finalClicked && o.confirmAfterFinal then
      some ⟨true, "Purchase confirmed", some o.url⟩
    else none

/-- The `for (let step = 1; step <= maxSteps; step++)` loop: `fuel`
iterations remain, `i` iterations were performed.  Returns the result and
the total number of iterations performed. -/
def runCheckoutSteps (obs : Nat → StepObs) : Nat → Nat → CheckoutResult × Nat
  | 0, i => (⟨false, "Checkout flow incomplete", some (obs i).url⟩, i)
  | fuel + 1, i =>
    match stepResult (obs i) with
    | some r => (r, i + 1)
    | none => runCheckoutSteps obs fuel (i + 1)

/-- `settings.maxSteps || 12`: absent and 0 are falsy in JS. -/
def effectiveMaxSteps : Option Nat → Nat
  | none => 12
  | some 0 => 12
  | some (n + 1) => n + 1

/-- `runCheckoutFlow(page, settings, helpers)` (auto-purchase.js lines
426-512), with the pre-loop buy-additional phase abstracted as
`clickedBuyAdditional` (its outcome does not affect the returned result:
the code proceeds regardless).  Returns the checkout result together with
the number of loop iterations performed. -/
def runCheckoutFlow (clickedBuyAdditional : Bool) (obs : Nat → StepObs)
    (settings : Settings) : CheckoutResult × Nat :=
  runCheckoutSteps obs (effectiveMaxSteps settings.maxSteps) 0

/-- No hazard detector fires and no action produces an effect at this
iteration. -/
def stepNoHazardNoEffect (o : StepObs) : Prop :=
  o.queue = false ∧ o.login = false ∧ o.confirmation = false ∧
    o.blockingError = false ∧ o.termsEffect = false ∧ o.finalClicked = false ∧
    o.quantityEffect = false ∧ o.savedPaymentEffect = false ∧ o.continueEffect = false

/-- The heuristic actions of the stepping loop.  `fillPayment` is the
payment-detail filling (`fillCardDetails`); it is listed so that its
absence from the attempted actions can be stated. -/
inductive CheckoutAction
  | checkTerms
  | finalPurchase
  | setQuantity
  | savedPayment
  | fillPayment
  | continueNext
deriving DecidableEq, Repr

/-- The actions actually attempted during the action section of one loop
iteration (auto-purchase.js lines 473-494): `checkTermsCheckboxes` and the
final-purchase click are always attempted; `setTicketQuantity`,
`selectSavedPayment` and the continue click are attempted only while
`acted` is still false (the `acted = acted || ...` chains short-circuit).
`fillCardDetails` is never called by this loop, so it never appears. -/
def iterationActions (settings : Settings) (o : StepObs) : List CheckoutAction :=
  let actedAfterFinal := o.termsEffect || o.finalClicked
  let actedAfterQuantity := actedAfterFinal || o.quantityEffect
  let actedAfterSaved := actedAfterQuantity || o.savedPaymentEffect
  [CheckoutAction.checkTerms, CheckoutAction.finalPurchase] ++
    (if actedAfterFinal then [] else [CheckoutAction.setQuantity]) ++
    (if actedAfterQuantity then [] else [CheckoutAction.savedPayment]) ++
    (if actedAfterSaved then [] else [CheckoutAction.continueNext])

/-- An `<option>` element: value and text content. -/
structure OptionEl where
  value : String
  textContent : String
deriving DecidableEq, Repr

/-- A `<select>` element with the fields `setTicketQuantity` reads. -/
structure SelectEl where
  id : String
  name : String
  className : String
  value : String
  options : List OptionEl
deriving DecidableEq, Repr

/-- An `<input type="number">` element with the fields read by
`setTicketQuantity`; `max` is the raw attribute string (empty = absent). -/
structure NumberInputEl where
  id : String
  name : String
  max : String
  disabled : Bool
  value : String
deriving DecidableEq, Repr

/-- The DOM slice `setTicketQuantity` queries. -/
structure QtyPage where
  selects : List SelectEl
  numberInputs : List NumberInputEl
deriving DecidableEq, Repr

/-- The `{ success, quantity }` object returned inside `page.evaluate`. -/
structure QtyResult where
  success : Bool
  quantity : Option Nat
deriving DecidableEq, Repr

/-- An option matches quantity `q` when its value or trimmed text equals
`String(q)`. -/
def qtyMatchesOption (o : OptionEl) (q : Nat) : Bool :=
  o.value == toString q || jsTrim o.textContent == toString q

/-- A select is a quantity selector when id, name or class contains the
substring quantity (lower-cased). -/
def isQuantitySelect (s : SelectEl) : Bool :=
  jsIncludes (jsToLower s.id) "quantity" || jsIncludes (jsToLower s.name) "quantity" ||
    jsIncludes (jsToLower s.className) "quantity"

/-- `Array.from(select.options).find(...)` for quantity `q`. -/
def findOption (s : SelectEl) (q : Nat) : Option OptionEl :=
  s.options.find? (fun o => qtyMatchesOption o q)

/-- The descending fallback `for (let qty = desired - 1; qty >= 1; qty--)`:
called with `desired - 1`, returns the first (greatest) quantity down to 1
that has a matching option. -/
def findDownOption (s : SelectEl) : Nat → Option (Nat × OptionEl)
  | 0 => none
  | k + 1 =>
    match findOption s (k + 1) with
    | some o => some (k + 1, o)
    | none => findDownOption s k

/-- Behaviour of the select branch once a quantity select was found
(auto-purchase.js lines 224-244): desired quantity first, then the
descending fallback, else `{ success: false }` without touching the
select. -/
def evalQuantitySelect (sel : SelectEl) (desired : Nat) : QtyResult × SelectEl :=
  match findOption sel desired with
  | some o => (⟨true, some desired⟩, { sel with value := o.value })
  | none =>
    match findDownOption sel (desired - 1) with
    | some (q, o) => (⟨true, some q⟩, { sel with value := o.value })
    | none => (⟨false, none⟩, sel)

/-- The loop over all selects: the first quantity select determines the
result (the code returns from inside the loop in every branch of that
select). -/
def evalSelects (desired : Nat) : List SelectEl → Option (QtyResult × List SelectEl)
  | [] => none
  | sel :: rest =>
    if isQuantitySelect sel then
      some ((evalQuantitySelect sel desired).1, (evalQuantitySelect sel desired).2 :: rest)
    else
      (evalSelects desired rest).map (fun p => (p.1, sel :: p.2))

/-- JavaScript `parseInt` on a trimmed string: optional sign followed by a
longest digit run; `none` models NaN. -/
def jsParseInt (s : String) : Option Int :=
  let core : List Char → Option Int := fun cs =>
    let ds := cs.takeWhile Char.isDigit
    if ds.isEmpty then none
    else some ((ds.foldl (fun n c => n * 10 + (c.toNat - 48)) 0 : Nat) : Int)
  match (jsTrim s).data with
  | '-' :: cs => (core cs).map (fun n => -n)
  | '+' :: cs => core cs
  | cs => core cs

/-- The loop over `input[type="number"]` elements (auto-purchase.js lines
247-267): anonymous inputs are skipped when several exist; a matching
enabled input is set to `min(desired, max)` and the code returns on the
first countdown iteration, so the reported quantity is that minimum
(provided it is at least 1, otherwise the countdown body never runs and
the loop moves on). -/
def evalInputs (total : Nat) (desired : Nat) : List NumberInputEl →
    Option (QtyResult × List NumberInputEl)
  | [] => none
  | inp :: rest =>
    if inp.id == "" && inp.name == "" && decide (1 < total) then
      (evalInputs total desired rest).map (fun p => (p.1, inp :: p.2))
    else
      if (jsIncludes (jsToLower inp.id) "quantity" || jsIncludes (jsToLower inp.name) "quantity" ||
          decide (total = 1)) && !inp.disabled then
        match (if inp.max == "" then some (Int.ofNat desired) else jsParseInt inp.max) with
        | none => (evalInputs total desired rest).map (fun p => (p.1, inp :: p.2))
        | some m =>
          if 1 ≤ min (Int.ofNat desired) m then
            some (⟨true, some (min (Int.ofNat desired) m).toNat⟩,
              { inp with value := toString (min (Int.ofNat desired) m) } :: rest)
          else
            (evalInputs total desired rest).map (fun p => (p.1, inp :: p.2))
      else
        (evalInputs total desired rest).map (fun p => (p.1, inp :: p.2))

/-- The whole `page.evaluate` body of `setTicketQuantity` (lines 218-270):
selects first, then number inputs, else `{ success: false }`.  Returns the
result together with the updated page. -/
def setTicketQuantityEval (page : QtyPage) (desired : Nat) : QtyResult × QtyPage :=
  match evalSelects desired page.selects with
  | some (r, selects) => (r, { page with selects := selects })
  | none =>
    match evalInputs page.numberInputs.length desired page.numberInputs with
    | some (r, inputs) => (r, { page with numberInputs := inputs })
    | none => (⟨false, none⟩, page)

/-- `setTicketQuantity(page, quantity)` (lines 215-282): the guard
`if (!quantity || quantity <= 1) return false` runs before any page
evaluation, so absent, zero or one leaves the page untouched.  Returns
`result.success` and the page after the call. -/
def setTicketQuantity (page : QtyPage) (quantity : Option Nat) : Bool × QtyPage :=
  match quantity with
  | none => (false, page)
  | some q =>
    if q ≤ 1 then (false, page)
    else
      ((setTicketQuantityEval page q).1.success, (setTicketQuantityEval page q).2)

/-- Entry-control vocabulary test of `clickOrderTicketsButton` (line 529):
ORDER, GET, or BUY together with TICKET, on the upper-cased trimmed button
text. -/
def orderVocab (text : String) : Bool :=
  let t := jsToUpper (jsTrim text)
  jsIncludes t "ORDER" || jsIncludes t "GET" || (jsIncludes t "BUY" && jsIncludes t "TICKET")

/-- One schedule row as inspected by `clickOrderTicketsButton`: the h3
title (if present), whether a table-row container encloses it, and the
text of the actionable controls in the row. -/
structure ScheduleRow where
  h3Title : Option String
  inTableRow : Bool
  buttonTexts : List String
deriving DecidableEq, Repr

/-- Whether this row yields the entry control for the queried title
(auto-purchase.js lines 516-534): fuzzy case-insensitive title
containment, a row container, and a control with order vocabulary. -/
def rowHasOrderButton (queryTitle : String) (row : ScheduleRow) : Bool :=
  match row.h3Title with
  | none => false
  | some t =>
    jsIncludes (jsToLower (jsTrim t)) (jsToLower queryTitle) && row.inTableRow &&
      row.buttonTexts.any orderVocab

/-- Outcome of `clickOrderTicketsButton`: either the failure object
`{ success: false, reason: 'Order tickets button not found' }` or entry
into checkout (popup appearance abstracted). -/
inductive OrderOutcome
  | notFound
  | entered (openedNewPage : Bool)
deriving DecidableEq, Repr

/-- `clickOrderTicketsButton(page, filmTitle)` (lines 514-552). -/
def clickOrderTicketsButton (rows : List ScheduleRow) (filmTitle : String)
    (popupAppeared : Bool) : OrderOutcome :=
  if rows.any (rowHasOrderButton filmTitle) then OrderOutcome.entered popupAppeared
  else OrderOutcome.notFound

/-- The environment one attempt runs against: the schedule rows seen by
the entry step, whether a popup appears, an exception raised during the
entry or settle phase (if any), and the outcome of the checkout flow
(`Except.error` models an exception escaping `runCheckoutFlow`). -/
structure AttemptEnv where
  rows : List ScheduleRow
  popupAppeared : Bool
  clickPhaseError : Option String
  checkout : Except String CheckoutResult

/-- Externally visible effects of one attempt that the claims mention. -/
inductive AttemptEffect
  | errorScreenshot
  | checkoutRun
  | notify (success : Bool) (reason : String)
deriving DecidableEq, Repr

/-- `attemptPurchase(page, filmTitle, screeningTime, config, sendNotification)`
(auto-purchase.js lines 555-624).  The guard results carry no url field;
the catch branch takes a best-effort diagnostic screenshot and returns a
failure whose reason is the exception message. -/
def attemptPurchase (filmTitle : String) (screeningTime : Option String)
    (config : AutoPurchaseConfig) (notifierPresent : Bool) (env : AttemptEnv) :
    CheckoutResult × List AttemptEffect :=
  let settings := config.settings
  match getFilmSettings filmTitle screeningTime (some config) with
  | none => (⟨false, "Film screening not found in auto-purchase list", none⟩, [])
  | some filmSettings =>
    if filmSettings.autoPurchase == true then
      match env.clickPhaseError with
      | some msg => (⟨false, msg, none⟩, [AttemptEffect.errorScreenshot])
      | none =>
        match clickOrderTicketsButton env.rows filmTitle env.popupAppeared with
        | OrderOutcome.notFound =>
          (⟨false, "Order tickets button not found", none⟩, [])
        | OrderOutcome.entered _ =>
          match env.checkout with
          | Except.error msg =>
            (⟨false, msg, none⟩, [AttemptEffect.checkoutRun, AttemptEffect.errorScreenshot])
          | Except.ok r =>
            if notifierPresent && settings.notifyOnPurchaseUpdates != some false then
              (r, [AttemptEffect.checkoutRun, AttemptEffect.notify r.success r.reason])
            else
              (r, [AttemptEffect.checkoutRun])
    else
      (⟨false, "Auto-purchase disabled for this screening", none⟩, [])

/-- An iteration observation on which nothing fires and nothing has an
effect. -/
def quietObs : StepObs :=
  ⟨false, false, false, false, "https://example.org/checkout", false, false, false, false,
    false, false⟩

/-- An iteration observation on which the queue detector and the
confirmation detector hold simultaneously. -/
def queueConfirmObs : StepObs :=
  ⟨true, false, true, false, "https://example.org/queue", false, false, false, false,
    false, false⟩

/-- Settings with payment values configured. -/
def paymentSettings : Settings :=
  { defaultSettings with
    payment := some ⟨some "4242424242424242", some "12/26", some "123", some "N N", some "12345"⟩ }

/-- A rule with an explicit screening time. -/
def ruleExactTime : FilmRule := ⟨"a", some "5pm", true⟩

/-- A rule for the same title with no screening time. -/
def ruleNoTime : FilmRule := ⟨"a", none, true⟩

/-- A config declaring both an exact-time rule and a no-time rule for the
same title. -/
def configTwoRules : AutoPurchaseConfig := ⟨true, [ruleExactTime, ruleNoTime], defaultSettings⟩

/-- A config declaring a single exact-time rule. -/
def configSingleRule : AutoPurchaseConfig := ⟨true, [ruleExactTime], defaultSettings⟩

/-- An attempt environment whose entry phase raises an exception. -/
def envBoom : AttemptEnv :=
  ⟨[], false, some "boom", Except.ok ⟨true, "Purchase confirmed", some "u"⟩⟩

/-- An attempt environment with an empty schedule (no entry control at
all) and a checkout that would succeed if it were ever reached. -/
def envNoRows : AttemptEnv :=
  ⟨[], false, none, Except.ok ⟨true, "Purchase confirmed", some "u"⟩⟩

/-- An attempt environment whose only row for the film shows a sold-out
control, hence no order vocabulary. -/
def envSoldOutRow : AttemptEnv :=
  ⟨[⟨some "a", true, ["SOLD OUT"]⟩], false, none,
    Except.ok ⟨true, "Purchase confirmed", some "u"⟩⟩

/-- A quantity select offering exactly the quantities 1 through 3. -/
def qtySelect3 : SelectEl :=
  ⟨"quantity", "", "", "1", [⟨"1", "1"⟩, ⟨"2", "2"⟩, ⟨"3", "3"⟩]⟩

/-- A page presenting only that quantity select. -/
def qtySelectPage3 : QtyPage := ⟨[qtySelect3], []⟩

/-- A parsed config with a falsy enabled flag. -/
def disabledConfig : AutoPurchaseConfig := ⟨false, [], defaultSettings⟩

/-- A sample change event. -/
def sampleChange : ChangeEvent :=
  ⟨ChangeType.NEW_AVAILABLE, "a", "5pm", TicketStatus.AVAILABLE, "ORDER TICKETS", "u"⟩

/-- A quiet iteration never returns from the loop. -/
lemma stepResult_eq_none_of_quiet (o : StepObs) (h : stepNoHazardNoEffect o) :
    stepResult o = none := by
  obtain ⟨h1, h2, h3, h4, h5, h6, h7, h8, h9⟩ := h
  simp [stepResult, hazardResult, h1, h2, h3, h4, h6]

/-- If every iteration is quiet, the stepping loop consumes its whole fuel
and reports budget exhaustion. -/
lemma runCheckoutSteps_quiet (obs : Nat → StepObs) (h : ∀ j, stepResult (obs j) = none) :
    ∀ fuel i, runCheckoutSteps obs fuel i =
      (⟨false, "Checkout flow incomplete", some (obs (fuel + i)).url⟩, fuel + i) := by
  intro fuel
  induction fuel with
  | zero =>
    intro i
    simp [runCheckoutSteps]
  | succ k ih =>
    intro i
    simp only [runCheckoutSteps, h i]
    rw [ih (i + 1)]
    have hidx : k + (i + 1) = k + 1 + i := by omega
    rw [hidx]

/-- The effective step budget is always positive. -/
lemma effectiveMaxSteps_pos (m : Option Nat) : 0 < effectiveMaxSteps m := by
  cases m with
  | none => simp [effectiveMaxSteps]
  | some n => cases n <;> simp [effectiveMaxSteps]

/-- C1: on a page where no hazard detector ever fires and no action ever
produces an effect, runCheckoutFlow performs exactly the effective
maxSteps iterations (12 when settings.maxSteps is absent) and returns
success false with reason Checkout flow incomplete; it never iterates
beyond that budget. -/
theorem checkout_budget_exhaustion (settings : Settings) (obs : Nat → StepObs)
    (clickedBuyAdditional : Bool) (h : ∀ i, stepNoHazardNoEffect (obs i)) :
    (runCheckoutFlow clickedBuyAdditional obs settings).1.success = false ∧
    (runCheckoutFlow clickedBuyAdditional obs settings).1.reason = "Checkout flow incomplete" ∧
    (runCheckoutFlow clickedBuyAdditional obs settings).2 = effectiveMaxSteps settings.maxSteps ∧
    (settings.maxSteps = none → (runCheckoutFlow clickedBuyAdditional obs settings).2 = 12) := by
  have hn : ∀ j, stepResult (obs j) = none := fun j => stepResult_eq_none_of_quiet (obs j) (h j)
  have hrun := runCheckoutSteps_quiet obs hn (effectiveMaxSteps settings.maxSteps) 0
  unfold runCheckoutFlow
  rw [hrun]
  refine ⟨rfl, rfl, by simp, fun hms => by simp [hms, effectiveMaxSteps]⟩

/-- Witness for C1 at a concrete quiet page and default settings. -/
theorem checkout_budget_exhaustion_witness :
    (runCheckoutFlow false (fun _ => quietObs) defaultSettings).1.success = false ∧
    (runCheckoutFlow false (fun _ => quietObs) defaultSettings).1.reason =
      "Checkout flow incomplete" ∧
    (runCheckoutFlow false (fun _ => quietObs) defaultSettings).2 =
      effectiveMaxSteps defaultSettings.maxSteps ∧
    (defaultSettings.maxSteps = none →
      (runCheckoutFlow false (fun _ => quietObs) defaultSettings).2 = 12) :=
  checkout_budget_exhaustion defaultSettings (fun _ => quietObs) false
    (fun _ => (⟨rfl, rfl, rfl, rfl, rfl, rfl, rfl, rfl, rfl⟩ : stepNoHazardNoEffect quietObs))

/-- C2: the hazard checks run in the fixed order queue, login,
confirmation, blocking modal error, the first that holds determining the
result; in particular when the queue and confirmation detectors hold
simultaneously the attempt fails with the queue reason and never returns
a confirmed result. -/
theorem hazard_check_order (o : StepObs) :
    (o.queue = true →
      stepResult o = some ⟨false, "Queue/waiting room encountered", some o.url⟩) ∧
    (o.queue = false → o.login = true →
      stepResult o = some ⟨false, "Login required during checkout", some o.url⟩) ∧
    (o.queue = false → o.login = false → o.confirmation = true →
      stepResult o = some ⟨true, "Purchase confirmed", some o.url⟩) ∧
    (o.queue = false → o.login = false → o.confirmation = false → o.blockingError = true →
      stepResult o = some ⟨false, "Checkout error in modal", some o.url⟩) ∧
    (∀ (settings : Settings) (obs : Nat → StepObs) (b : Bool),
      (obs 0).queue = true → (obs 0).confirmation = true →
        (runCheckoutFlow b obs settings).1 =
          ⟨false, "Queue/waiting room encountered", some (obs 0).url⟩ ∧
        (runCheckoutFlow b obs settings).1.success = false) := by
  refine ⟨?_, ?_, ?_, ?_, ?_⟩
  · intro h1
    simp [stepResult, hazardResult, h1]
  · intro h1 h2
    simp [stepResult, hazardResult, h1, h2]
  · intro h1 h2 h3
    simp [stepResult, hazardResult, h1, h2, h3]
  · intro h1 h2 h3 h4
    simp [stepResult, hazardResult, h1, h2, h3, h4]
  · intro settings obs b hq hc
    have hstep : stepResult (obs 0) =
        some ⟨false, "Queue/waiting room encountered", some (obs 0).url⟩ := by
      simp [stepResult, hazardResult, hq]
    obtain ⟨k, hk⟩ := Nat.exists_eq_succ_of_ne_zero
      (Nat.pos_iff_ne_zero.mp (effectiveMaxSteps_pos settings.maxSteps))
    have hres : (runCheckoutFlow b obs settings).1 =
        ⟨false, "Queue/waiting room encountered", some (obs 0).url⟩ := by
      unfold runCheckoutFlow
      rw [hk]
      simp [runCheckoutSteps, hstep]
    exact ⟨hres, by rw [hres]⟩

/-- Witness for C2 at a concrete page state with simultaneous queue and
confirmation indicators. -/
theorem hazard_check_order_witness :
    stepResult queueConfirmObs =
      some ⟨false, "Queue/waiting room encountered", some queueConfirmObs.url⟩ ∧
    (runCheckoutFlow false (fun _ => queueConfirmObs) defaultSettings).1.success = false :=
  ⟨(hazard_check_order queueConfirmObs).1 rfl,
    ((hazard_check_order queueConfirmObs).2.2.2.2 defaultSettings
      (fun _ => queueConfirmObs) false rfl rfl).2⟩

/-- Unfolding equation for the matcher on a present config. -/
lemma getFilmSettings_eq (filmTitle : String) (screeningTime : Option String)
    (config : AutoPurchaseConfig) :
    getFilmSettings filmTitle screeningTime (some config) =
      match config.films.find?
          (exactRulePred (normalizeTitle filmTitle) (normalizeTitle (screeningTime.getD ""))) with
      | some exactMatch => some exactMatch
      | none => config.films.find? (titleOnlyPred (normalizeTitle filmTitle)) := rfl

/-- C3 counterexample: the matcher returns the rule with no screeningTime
for title a at time 7pm although an exact-time rule (5pm) exists for that
title, so the fallback is not restricted to titles that have no exact-time
rule. -/
theorem matcher_fallback_counterexample :
    getFilmSettings "a" (some "7pm") (some configTwoRules) = some ruleNoTime ∧
    jsFalsyStr ruleNoTime.screeningTime = true ∧
    ruleExactTime ∈ configTwoRules.films ∧
    jsFalsyStr ruleExactTime.screeningTime = false ∧
    normalizeTitle ruleExactTime.title = normalizeTitle "a" := by
  refine ⟨by decide, rfl, by decide, rfl, rfl⟩

/-- C3 amended: any returned rule matches the queried title after
normalization; a returned rule either matches the queried screening time
exactly, or it has no screeningTime and no rule in the config exactly
matches the queried pair; and a null result means no rule exactly matches
the pair and no no-time rule matches the title. -/
theorem matcher_resolution (filmTitle : String) (screeningTime : Option String)
    (config : AutoPurchaseConfig) :
    (∀ r, getFilmSettings filmTitle screeningTime (some config) = some r →
      normalizeTitle r.title = normalizeTitle filmTitle ∧
      (normalizeTitle (r.screeningTime.getD "") = normalizeTitle (screeningTime.getD "") ∨
        (jsFalsyStr r.screeningTime = true ∧
          ∀ f ∈ config.films,
            exactRulePred (normalizeTitle filmTitle)
              (normalizeTitle (screeningTime.getD "")) f = false))) ∧
    (getFilmSettings filmTitle screeningTime (some config) = none →
      ∀ f ∈ config.films,
        exactRulePred (normalizeTitle filmTitle)
          (normalizeTitle (screeningTime.getD "")) f = false ∧
        titleOnlyPred (normalizeTitle filmTitle) f = false) := by
  constructor
  · intro r hr
    rw [getFilmSettings_eq] at hr
    cases hexact : config.films.find?
        (exactRulePred (normalizeTitle filmTitle) (normalizeTitle (screeningTime.getD ""))) with
    | some e =>
      rw [hexact] at hr
      have hre : e = r := by simpa using hr
      subst hre
      have hp := List.find?_some hexact
      unfold exactRulePred at hp
      simp only [Bool.and_eq_true, beq_iff_eq] at hp
      exact ⟨hp.1, Or.inl hp.2⟩
    | none =>
      rw [hexact] at hr
      have hp := List.find?_some hr
      unfold titleOnlyPred at hp
      simp only [Bool.and_eq_true, beq_iff_eq] at hp
      have hnone := List.find?_eq_none.mp hexact
      refine ⟨hp.2, Or.inr ⟨hp.1, fun f hf => ?_⟩⟩
      have := hnone f hf
      simpa using this
  · intro hr f hf
    rw [getFilmSettings_eq] at hr
    cases hexact : config.films.find?
        (exactRulePred (normalizeTitle filmTitle) (normalizeTitle (screeningTime.getD ""))) with
    | some e =>
      rw [hexact] at hr
      exact absurd hr (by simp)
    | none =>
      rw [hexact] at hr
      have h1 := List.find?_eq_none.mp hexact f hf
      have h2 := List.find?_eq_none.mp hr f hf
      exact ⟨by simpa using h1, by simpa using h2⟩

/-- Witness for C3 amended at a single exact-time rule and its own
screening. -/
theorem matcher_resolution_witness :
    normalizeTitle ruleExactTime.title = normalizeTitle "a" ∧
    (normalizeTitle (ruleExactTime.screeningTime.getD "") =
        normalizeTitle ((some "5pm").getD "") ∨
      (jsFalsyStr ruleExactTime.screeningTime = true ∧
        ∀ f ∈ configSingleRule.films,
          exactRulePred (normalizeTitle "a")
            (normalizeTitle ((some "5pm").getD "")) f = false)) :=
  (matcher_resolution "a" (some "5pm") configSingleRule).1 ruleExactTime (by decide)

/-- The differ computes exactly the per-entry classification, in current
iteration order. -/
lemma detectChanges_eq_spec (previousState : Snapshot) :
    ∀ currentState, detectChanges previousState currentState =
      detectChangesSpec previousState currentState := by
  intro currentState
  induction currentState with
  | nil => rfl
  | cons entry rest ih =>
    obtain ⟨key, current⟩ := entry
    simp only [detectChanges, detectChangesSpec, List.filterMap_cons, changeEventFor]
    rw [detectChangesSpec] at ih
    cases h : snapshotLookup previousState key with
    | none =>
      cases hs : current.status == TicketStatus.AVAILABLE <;> simp [hs, ih]
    | some previous =>
      cases hs : previous.status == TicketStatus.SOLD_OUT &&
          current.status == TicketStatus.AVAILABLE <;> simp [hs, ih]

/-- C4: detectChanges is a pure function of the two snapshots equal to the
per-key classification mapped over current in iteration order: one
NEW_AVAILABLE event per newly seen available key, one NOW_AVAILABLE event
per sold-out-to-available key, nothing else, each event carrying the
current record fields; membership in the output is exactly existence of a
current entry classified to that event. -/
theorem differ_matches_spec (previousState currentState : Snapshot) :
    detectChanges previousState currentState = detectChangesSpec previousState currentState ∧
    (∀ e, e ∈ detectChanges previousState currentState ↔
      ∃ entry, entry ∈ currentState ∧ changeEventFor previousState entry = some e) := by
  refine ⟨detectChanges_eq_spec previousState currentState, fun e => ?_⟩
  rw [detectChanges_eq_spec previousState currentState, detectChangesSpec]
  exact List.mem_filterMap

/-- C5 counterexample: at an iteration where no earlier action produces an
effect and payment values are configured, the attempted actions are
exactly terms, final purchase, quantity, saved payment, continue; the
payment-field filling action is not among them. -/
theorem fill_payment_not_attempted_counterexample :
    iterationActions paymentSettings quietObs =
      [CheckoutAction.checkTerms, CheckoutAction.finalPurchase, CheckoutAction.setQuantity,
        CheckoutAction.savedPayment, CheckoutAction.continueNext] ∧
    CheckoutAction.fillPayment ∉ iterationActions paymentSettings quietObs := by
  refine ⟨rfl, by decide⟩

/-- C5 amended: in every iteration the attempted actions form a sublist of
the fixed order terms, final purchase, quantity, saved payment, continue
(terms and the final-purchase control are always attempted first); the
payment-field filling is never attempted by the stepping loop. -/
theorem checkout_action_order (settings : Settings) (o : StepObs) :
    List.Sublist (iterationActions settings o)
      [CheckoutAction.checkTerms, CheckoutAction.finalPurchase, CheckoutAction.setQuantity,
        CheckoutAction.savedPayment, CheckoutAction.continueNext] ∧
    (iterationActions settings o).take 2 =
      [CheckoutAction.checkTerms, CheckoutAction.finalPurchase] ∧
    CheckoutAction.fillPayment ∉ iterationActions settings o := by
  have key : ∀ t f qe se : Bool,
      List.Sublist
        ([CheckoutAction.checkTerms, CheckoutAction.finalPurchase] ++
          (if t || f then [] else [CheckoutAction.setQuantity]) ++
          (if t || f || qe then [] else [CheckoutAction.savedPayment]) ++
          (if t || f || qe || se then [] else [CheckoutAction.continueNext]))
        [CheckoutAction.checkTerms, CheckoutAction.finalPurchase, CheckoutAction.setQuantity,
          CheckoutAction.savedPayment, CheckoutAction.continueNext] ∧
      ([CheckoutAction.checkTerms, CheckoutAction.finalPurchase] ++
          (if t || f then [] else [CheckoutAction.setQuantity]) ++
          (if t || f || qe then [] else [CheckoutAction.savedPayment]) ++
          (if t || f || qe || se then [] else [CheckoutAction.continueNext])).take 2 =
        [CheckoutAction.checkTerms, CheckoutAction.finalPurchase] ∧
      CheckoutAction.fillPayment ∉
        [CheckoutAction.checkTerms, CheckoutAction.finalPurchase] ++
          (if t || f then [] else [CheckoutAction.setQuantity]) ++
          (if t || f || qe then [] else [CheckoutAction.savedPayment]) ++
          (if t || f || qe || se then [] else [CheckoutAction.continueNext]) := by decide
  exact key o.termsEffect o.finalClicked o.quantityEffect o.savedPaymentEffect

/-- C6: an exception raised inside the attempt (during the entry phase or
escaping the checkout flow) is caught at the attempt boundary: the attempt
still returns exactly one CheckoutResult, a best-effort diagnostic
screenshot is among the effects, and the result is success false with the
exception message as reason.  Totality of attemptPurchase is the
never-propagates property. -/
theorem attempt_exception_boundary (filmTitle : String) (screeningTime : Option String)
    (config : AutoPurchaseConfig) (notifierPresent : Bool) (env : AttemptEnv) (msg : String)
    (fs : FilmRule)
    (hfs : getFilmSettings filmTitle screeningTime (some config) = some fs)
    (hap : fs.autoPurchase = true) :
    (env.clickPhaseError = some msg →
      attemptPurchase filmTitle screeningTime config notifierPresent env =
        (⟨false, msg, none⟩, [AttemptEffect.errorScreenshot])) ∧
    (env.clickPhaseError = none →
      env.rows.any (rowHasOrderButton filmTitle) = true →
      env.checkout = Except.error msg →
      attemptPurchase filmTitle screeningTime config notifierPresent env =
        (⟨false, msg, none⟩, [AttemptEffect.checkoutRun, AttemptEffect.errorScreenshot])) := by
  constructor
  · intro he
    unfold attemptPurchase
    rw [hfs]
    simp [hap, he]
  · intro he hfound hchk
    unfold attemptPurchase
    rw [hfs]
    simp [hap, he, clickOrderTicketsButton, hfound, hchk]

/-- Witness for C6: a concrete attempt whose entry phase raises the
exception boom. -/
theorem attempt_exception_boundary_witness :
    attemptPurchase "a" (some "5pm") configSingleRule false envBoom =
      (⟨false, "boom", none⟩, [AttemptEffect.errorScreenshot]) :=
  (attempt_exception_boundary "a" (some "5pm") configSingleRule false envBoom "boom"
    ruleExactTime (by decide) rfl).1 rfl

/-- C7 counterexample: with no entry control on the page the attempt fails
immediately, but the reason string is Order tickets button not found, not
entry control not found as the claim states; the checkout loop is never
entered. -/
theorem entry_reason_counterexample :
    (attemptPurchase "a" (some "5pm") configSingleRule false envNoRows).1 =
      ⟨false, "Order tickets button not found", none⟩ ∧
    (attemptPurchase "a" (some "5pm") configSingleRule false envNoRows).1.reason ≠
      "entry control not found" ∧
    AttemptEffect.checkoutRun ∉
      (attemptPurchase "a" (some "5pm") configSingleRule false envNoRows).2 := by
  refine ⟨by decide, by decide, by decide⟩

/-- C7 amended: when no row offers a control with the order vocabulary,
the attempt fails immediately with reason Order tickets button not found,
without invoking the checkout stepping loop and without retrying. -/
theorem entry_control_missing (filmTitle : String) (screeningTime : Option String)
    (config : AutoPurchaseConfig) (notifierPresent : Bool) (env : AttemptEnv) (fs : FilmRule)
    (hfs : getFilmSettings filmTitle screeningTime (some config) = some fs)
    (hap : fs.autoPurchase = true)
    (hne : env.clickPhaseError = none)
    (hnf : env.rows.any (rowHasOrderButton filmTitle) = false) :
    attemptPurchase filmTitle screeningTime config notifierPresent env =
      (⟨false, "Order tickets button not found", none⟩, []) ∧
    AttemptEffect.checkoutRun ∉
      (attemptPurchase filmTitle screeningTime config notifierPresent env).2 := by
  have hmain : attemptPurchase filmTitle screeningTime config notifierPresent env =
      (⟨false, "Order tickets button not found", none⟩, []) := by
    unfold attemptPurchase
    rw [hfs]
    simp [hap, hne, clickOrderTicketsButton, hnf]
  refine ⟨hmain, ?_⟩
  rw [hmain]
  simp

/-- Witness for C7 amended: a row for the film that only shows a sold-out
control. -/
theorem entry_control_missing_witness :
    attemptPurchase "a" (some "5pm") configSingleRule false envSoldOutRow =
      (⟨false, "Order tickets button not found", none⟩, []) :=
  (entry_control_missing "a" (some "5pm") configSingleRule false envSoldOutRow
    ruleExactTime (by decide) rfl rfl (by decide)).1

/-- The descending quantity fallback finds the greatest matching quantity
at or below its starting point. -/
lemma findDownOption_finds_greatest (sel : SelectEl) (q : Nat) (o : OptionEl)
    (h1 : 1 ≤ q) (hq : findOption sel q = some o) :
    ∀ n, q ≤ n → (∀ j, q < j → j ≤ n → findOption sel j = none) →
      findDownOption sel n = some (q, o) := by
  intro n
  induction n with
  | zero =>
    intro hle _
    omega
  | succ k ih =>
    intro hle habove
    by_cases hqk : q = k + 1
    · subst hqk
      simp [findDownOption, hq]
    · have hle2 : q ≤ k := by omega
      have hnone : findOption sel (k + 1) = none := habove (k + 1) (by omega) (by omega)
      simp only [findDownOption, hnone]
      exact ih hle2 (fun j hj1 hj2 => habove j hj1 (by omega))

/-- C8: when the desired quantity has no matching option but some lower
quantity does, setTicketQuantity degrades to the greatest available
quantity below the desired one and reports it as a success; in particular
on a select offering exactly 1 through 3, desired quantity 4 yields
success true with quantity 3, not a failure. -/
theorem quantity_degradation (sel : SelectEl) (inputs : List NumberInputEl) (desired q : Nat)
    (o : OptionEl)
    (hqsel : isQuantitySelect sel = true)
    (hnone : findOption sel desired = none)
    (h1 : 1 ≤ q) (hlt : q < desired)
    (hq : findOption sel q = some o)
    (habove : ∀ j, q < j → j < desired → findOption sel j = none) :
    (setTicketQuantityEval ⟨[sel], inputs⟩ desired).1 = ⟨true, some q⟩ ∧
    (setTicketQuantityEval qtySelectPage3 4).1 = ⟨true, some 3⟩ ∧
    (setTicketQuantity qtySelectPage3 (some 4)).1 = true := by
  have hdown : findDownOption sel (desired - 1) = some (q, o) :=
    findDownOption_finds_greatest sel q o h1 hq (desired - 1) (by omega)
      (fun j hj1 hj2 => habove j hj1 (by omega))
  refine ⟨?_, by decide, by decide⟩
  simp [setTicketQuantityEval, evalSelects, hqsel, evalQuantitySelect, hnone, hdown]

/-- Witness for C8 at the concrete select offering 1 through 3 and desired
quantity 4. -/
theorem quantity_degradation_witness :
    (setTicketQuantityEval ⟨[qtySelect3], []⟩ 4).1 = ⟨true, some 3⟩ ∧
    (setTicketQuantityEval qtySelectPage3 4).1 = ⟨true, some 3⟩ ∧
    (setTicketQuantity qtySelectPage3 (some 4)).1 = true :=
  quantity_degradation qtySelect3 [] 4 3 ⟨"3", "3"⟩ (by decide) (by decide) (by decide)
    (by decide) (by decide) (fun j hj1 hj2 => by omega)

/-- C9: with a configured quantity that is absent, zero or one, the guard
returns false before any page evaluation, so the page is left entirely
unchanged even when a quantity selector is present. -/
theorem quantity_guard_noop (page : QtyPage) (quantity : Option Nat)
    (h : quantity = none ∨ quantity = some 0 ∨ quantity = some 1) :
    setTicketQuantity page quantity = (false, page) := by
  rcases h with h | h | h <;> subst h <;> simp [setTicketQuantity]

/-- Witness for C9 on a page that does present a quantity selector. -/
theorem quantity_guard_noop_witness :
    setTicketQuantity qtySelectPage3 (some 1) = (false, qtySelectPage3) :=
  quantity_guard_noop qtySelectPage3 (some 1) (Or.inr (Or.inr rfl))

/-- C10: loadAutoPurchaseConfig totally maps every file state to an
optional config: none for an absent file, none for unparseable contents,
none for a parsed config with a falsy enabled flag, the parsed config
otherwise; and when it is none the monitoring loop performs no
auto-purchase invocation at all, so the Matcher and Engine are never
consulted. -/
theorem config_gating :
    loadAutoPurchaseConfig AutoPurchaseFile.absent = none ∧
    loadAutoPurchaseConfig AutoPurchaseFile.malformed = none ∧
    (∀ c : AutoPurchaseConfig, c.enabled = false →
      loadAutoPurchaseConfig (AutoPurchaseFile.wellFormed c) = none) ∧
    (∀ c : AutoPurchaseConfig, c.enabled = true →
      loadAutoPurchaseConfig (AutoPurchaseFile.wellFormed c) = some c) ∧
    (∀ (file : AutoPurchaseFile) (changes : List ChangeEvent),
      loadAutoPurchaseConfig file = none → autoPurchaseInvocations file changes = []) := by
  refine ⟨rfl, rfl, ?_, ?_, ?_⟩
  · intro c hc
    simp [loadAutoPurchaseConfig, hc]
  · intro c hc
    simp [loadAutoPurchaseConfig, hc]
  · intro file changes hnone
    simp [autoPurchaseInvocations, hnone]

/-- Witness for C10: a disabled parsed config loads as null, and a
malformed file triggers no auto-purchase invocation. -/
theorem config_gating_witness :
    loadAutoPurchaseConfig (AutoPurchaseFile.wellFormed disabledConfig) = none ∧
    autoPurchaseInvocations AutoPurchaseFile.malformed [sampleChange] = [] :=
  ⟨config_gating.2.2.1 disabledConfig rfl,
    config_gating.2.2.2.2 AutoPurchaseFile.malformed [sampleChange] rfl⟩

end Sundance
